import Mathlib

/-!
Shallow embedding of the `metastonehack` package and of the
`workloadcluster` package of the kubevirt-cluster repository.

Pure string processing (CIDR / IP parsing, substring checks) is embedded
directly; interactions with the host (shell commands, the kernel routing
table, netlink, the filesystem) are embedded as explicit state passing over
small host-state structures, with every issued command recorded in the
result so that frame conditions can be stated.
-/

deriving instance DecidableEq for Except

namespace Metastone

/-! ### Go `net` package primitives used by the source

The source calls `net.ParseCIDR`, `net.ParseIP`, `IP.To4` and `IP.Equal`.
These are embedded here following the Go standard library's algorithms
(decimal/hex accumulation with the `0xFFFFFF` overflow bound, the
leading-zero rejection for dotted-quad octets, IPv6 ellipsis expansion,
and the 4-byte / 16-byte `To4` and `Equal` semantics). -/

/-- Accumulator bound used by Go's `dtoi`/`xtoi` (`net/parse.go`). -/
def big : Nat := 0xFFFFFF

/-- Go `dtoi`: read a decimal prefix of the character list.  Returns the
value, the number of characters consumed, and the rest; `none` when no
digit is present or the value reaches the `big` bound. -/
def dtoiGo (s : List Char) : Option (Nat × Nat × List Char) :=
  go 0 0 s
where
  go (n cnt : Nat) : List Char → Option (Nat × Nat × List Char)
    | [] => if cnt = 0 then none else some (n, cnt, [])
    | c :: rest =>
      if c.isDigit then
        let n2 := n * 10 + (c.toNat - 48)
        if big ≤ n2 then none else go n2 (cnt + 1) rest
      else if cnt = 0 then none else some (n, cnt, c :: rest)

/-- Hex digit value, `none` for a non-hex character. -/
def hexVal (c : Char) : Option Nat :=
  if '0' ≤ c ∧ c ≤ '9' then some (c.toNat - 48)
  else if 'a' ≤ c ∧ c ≤ 'f' then some (c.toNat - 97 + 10)
  else if 'A' ≤ c ∧ c ≤ 'F' then some (c.toNat - 65 + 10)
  else none

/-- Go `xtoi`: read a hexadecimal prefix.  Returns value and rest; `none`
when no hex digit is present or the value reaches the `big` bound. -/
def xtoiGo (s : List Char) : Option (Nat × List Char) :=
  go 0 0 s
where
  go (n cnt : Nat) : List Char → Option (Nat × List Char)
    | [] => if cnt = 0 then none else some (n, [])
    | c :: rest =>
      match hexVal c with
      | some v =>
        let n2 := n * 16 + v
        if big ≤ n2 then none else go n2 (cnt + 1) rest
      | none => if cnt = 0 then none else some (n, c :: rest)

/-- One dotted-quad octet, following Go `parseIPv4`: decimal value `≤ 255`,
leading zeros rejected. -/
def parseOctet (s : List Char) : Option (Nat × List Char) :=
  match dtoiGo s with
  | none => none
  | some (n, cnt, rest) =>
    if 255 < n then none
    else if 1 < cnt ∧ s.head? = some '0' then none
    else some (n, rest)

/-- Go `parseIPv4` on a character list: exactly four octets separated by
dots, the whole input consumed. -/
def parseIPv4Go (s : List Char) : Option (Nat × Nat × Nat × Nat) := do
  let (a, s) ← parseOctet s
  let s ← expectDot s
  let (b, s) ← parseOctet s
  let s ← expectDot s
  let (c, s) ← parseOctet s
  let s ← expectDot s
  let (d, s) ← parseOctet s
  if s = [] then some (a, b, c, d) else none
where
  expectDot : List Char → Option (List Char)
    | '.' :: rest => some rest
    | _ => none

/-- Go `parseIPv6`, main loop.  `acc` is the list of bytes accumulated so
far, `ell` the byte position of the `::` ellipsis when one was seen.
`fuel` bounds the iteration count (each round adds at least two bytes, so
9 rounds always suffice). -/
def v6loop (fuel : Nat) (s : List Char) (acc : List Nat) (ell : Option Nat) :
    Option (List Nat) :=
  match fuel with
  | 0 => none
  | fuel + 1 =>
    if 16 ≤ acc.length then v6finish s acc ell
    else
      match xtoiGo s with
      | none => none
      | some (n, rest) =>
        if 0xFFFF < n then none
        else if rest.head? = some '.' then
          -- embedded dotted-quad tail
          if (ell = none ∧ acc.length ≠ 12) ∨ 16 < acc.length + 4 then none
          else
            match parseIPv4Go s with
            | none => none
            | some (a, b, c, d) => v6finish [] (acc ++ [a, b, c, d]) ell
        else
          let acc := acc ++ [n / 256, n % 256]
          match rest with
          | [] => v6finish [] acc ell
          | ':' :: rest2 =>
            match rest2 with
            | [] => none
            | ':' :: rest3 =>
              if ell.isSome then none
              else if rest3 = [] then v6finish [] acc (some acc.length)
              else v6loop fuel rest3 acc (some acc.length)
            | _ => v6loop fuel rest2 acc ell
          | _ => none
where
  /-- Go `parseIPv6`, after the loop: expand the ellipsis with zeros, or
  require exactly 16 bytes with no ellipsis. -/
  v6finish (s : List Char) (acc : List Nat) (ell : Option Nat) :
      Option (List Nat) :=
    if s ≠ [] then none
    else if acc.length < 16 then
      match ell with
      | none => none
      | some e => some (acc.take e ++ List.replicate (16 - acc.length) 0 ++ acc.drop e)
    else if ell.isSome then none
    else some acc

/-- Go `parseIPv6` on a character list. -/
def parseIPv6Go (s : List Char) : Option (List Nat) :=
  match s with
  | ':' :: ':' :: rest =>
    if rest = [] then some (List.replicate 16 0)
    else v6loop 9 rest [] (some 0)
  | _ => v6loop 9 s [] none

/-- A parsed Go `net.IP`: a 4-byte IPv4 address or a 16-byte IPv6 address. -/
inductive IPAddr where
  | v4 (a b c d : Nat)
  | v6 (bytes : List Nat)
deriving DecidableEq, Repr

/-- Go `IP.To4`: the 4 bytes of an IPv4 address, or of a v4-in-v6 mapped
IPv6 address; `none` otherwise. -/
def ipTo4 : IPAddr → Option (Nat × Nat × Nat × Nat)
  | .v4 a b c d => some (a, b, c, d)
  | .v6 bs =>
    match bs with
    | [0, 0, 0, 0, 0, 0, 0, 0, 0, 0, 255, 255, a, b, c, d] => some (a, b, c, d)
    | _ => none

/-- Go `IP.Equal`: bytewise equality, identifying an IPv4 address with its
v4-in-v6 mapped form. -/
def ipEqual (x y : IPAddr) : Bool :=
  match ipTo4 x, ipTo4 y with
  | some a, some b => a = b
  | _, _ =>
    match x, y with
    | .v6 bs, .v6 bs2 => bs = bs2
    | _, _ => false

/-- Split a character list at the first `/`, Go's `byteIndex(s, '/')`. -/
def splitAtSlash : List Char → Option (List Char × List Char)
  | [] => none
  | '/' :: rest => some ([], rest)
  | c :: rest => (splitAtSlash rest).map (fun p => (c :: p.1, p.2))

/-- Go `net.ParseCIDR`: address part before the first `/`, prefix length
after it (decimal, bounded by the bit width of the address family).
Returns the address **as written** (Go's first return value) together with
the prefix length; the repository discards Go's second return value (the
masked network). -/
def parseCIDR (s : String) : Option (IPAddr × Nat) := do
  let (addr, mask) ← splitAtSlash s.data
  let (ip, iplen) ←
    match parseIPv4Go addr with
    | some (a, b, c, d) => some (IPAddr.v4 a b c d, 4)
    | none =>
      match parseIPv6Go addr with
      | some bs => some (IPAddr.v6 bs, 16)
      | none => none
  let (n, _, rest) ← dtoiGo mask
  if rest = [] ∧ n ≤ 8 * iplen then some (ip, n) else none

/-- Go `net.ParseIP`: dispatch on the first `.` or `:` in the string; for
IPv6, a `%zone` suffix is stripped before parsing. -/
def parseIP (s : String) : Option IPAddr :=
  match s.data.find? (fun c => c = '.' || c = ':') with
  | some '.' => (parseIPv4Go s.data).map (fun p => IPAddr.v4 p.1 p.2.1 p.2.2.1 p.2.2.2)
  | some ':' => (parseIPv6Go (s.data.takeWhile (fun c => c ≠ '%'))).map IPAddr.v6
  | _ => none

/-- Dotted-quad rendering, Go `IP.String` on a 4-byte address. -/
def dottedQuad (a b c d : Nat) : String :=
  s!"{a}.{b}.{c}.{d}"

/-! ### `getManagerGWFromDefaultTenant` (src/unnamed/part_000, lines 47–82) -/

/-- The field of a `TenantApiServer` resource the function reads. -/
structure TenantApiServer where
  subnet : String
deriving DecidableEq, Repr

/-- The distinct error exits of `getManagerGWFromDefaultTenant`, one per
`return "", fmt.Errorf(...)` site. -/
inductive MgrGWError where
  | listFailed
  | wrongCount
  | emptySubnet
  | invalidSubnet
  | notIPv4
deriving DecidableEq, Repr

/-- The errors whose message begins `unexpected configuration` (spec.md's
`ConfigurationError` bucket); `listFailed` wraps the API error instead. -/
def isConfigurationError : MgrGWError → Bool
  | .listFailed => false
  | _ => true

/-- Subnet processing of `getManagerGWFromDefaultTenant` (lines 70–81):
`net.ParseCIDR`, `To4`, set the last octet to 2, render dotted-quad.
Spec.md calls this step the Gateway Resolver. -/
def managerGWFromSubnet (subnet : String) : Except MgrGWError String :=
  match parseCIDR subnet with
  | none => .error .invalidSubnet
  | some (ip, _) =>
    match ipTo4 ip with
    | none => .error .notIPv4
    | some (a, b, c, _) => .ok (dottedQuad a b c 2)

/-- Function `getManagerGWFromDefaultTenant` (lines 47–82).  The controller-runtime
`List` call is the external collaborator; its outcome (failure, or the
filtered item list) is the argument. -/
def getManagerGWFromDefaultTenant
    (listResult : Except Unit (List TenantApiServer)) : Except MgrGWError String :=
  match listResult with
  | .error _ => .error .listFailed
  | .ok items =>
    match items with
    | [item] =>
      if item.subnet = "" then .error .emptySubnet
      else managerGWFromSubnet item.subnet
    | _ => .error .wrongCount

/-- Mask an IPv4 octet under a prefix of length `n` whose bits start
`8 * k` bits into the address. -/
def maskOctet (x n k : Nat) : Nat :=
  let bits := min 8 (n - 8 * k)
  x / 2 ^ (8 - bits) * 2 ^ (8 - bits)

/-- The Gateway Resolver as spec.md words it: the **network address** of
the CIDR (address masked by the prefix) with the last octet set to 2.
Stated from the spec's words, to be compared with `managerGWFromSubnet`. -/
def gatewayResolverNetworkSpec (subnet : String) : Option String :=
  match parseCIDR subnet with
  | none => none
  | some (ip, n) =>
    match ipTo4 ip with
    | none => none
    | some (a, b, c, _) =>
      some (dottedQuad (maskOctet a n 0) (maskOctet b n 1) (maskOctet c n 2) 2)

/-! ### `checkAndAddRoute` (src/unnamed/part_000, lines 100–133)

The kernel routing table is a host-state value; `ip route show` returns
its text, `ip route add` appends a line.  That an added route shows up in
later `ip route show` output as `<dst>/32 via <gw>` is the contract of the
external `ip` collaborator, modelled from the spec ("subsequent query
shows it present"). -/

/-- Go `strings.Contains`. -/
def goContains (s substr : String) : Bool :=
  decide (substr.data <:+: s.data)

/-- Host state seen by `checkAndAddRoute`: the text the kernel answers to
`ip route show`, and whether an `ip route add` exits zero. -/
structure Kernel where
  table : String
  addSucceeds : Bool
deriving DecidableEq, Repr

/-- Output of `ip route show`. -/
def ipRouteShow (k : Kernel) : String := k.table

/-- Effect of `ip route add <dst32> via <gw>` on the kernel: on exit zero
the route is appended to the table text; on failure nothing changes. -/
def ipRouteAdd (k : Kernel) (dst32 gw : String) : Kernel × Bool :=
  if k.addSucceeds then
    ({ k with table := k.table ++ "\n" ++ dst32 ++ " via " ++ gw }, true)
  else (k, false)

/-- Success outcomes of `checkAndAddRoute`: the `return nil` after the
"already exists" message (case 1), and after a successful add (case 3). -/
inductive RouteOk where
  | alreadyExists
  | added
deriving DecidableEq, Repr

/-- Error exits of `checkAndAddRoute`. -/
inductive RouteError where
  | checkFailed
  | conflict
  | addFailed
deriving DecidableEq, Repr

/-- Function `checkAndAddRoute(apiServersIP, managerGW)` (lines 100–133).  `showOk`
is the exit status of `ip route show`.  Returns the function result, the
kernel state afterwards, and the list of `ip route add` commands issued
(each as its `(<dst>/32, gateway)` arguments). -/
def checkAndAddRoute (showOk : Bool) (k : Kernel) (apiServersIP managerGW : String) :
    Except RouteError RouteOk × Kernel × List (String × String) :=
  if !showOk then (.error .checkFailed, k, [])
  else
    let routeToCheck := apiServersIP ++ "/32"
    let outputStr := ipRouteShow k
    if goContains outputStr routeToCheck && goContains outputStr managerGW then
      (.ok .alreadyExists, k, [])
    else if goContains outputStr routeToCheck && !goContains outputStr managerGW then
      (.error .conflict, k, [])
    else
      let (k2, ok) := ipRouteAdd k routeToCheck managerGW
      if ok then (.ok .added, k2, [(routeToCheck, managerGW)])
      else (.error .addFailed, k2, [(routeToCheck, managerGW)])

/-! ### `getInterfaceNameByIP` (src/unnamed/part_000, lines 136–166) -/

/-- A host interface as `getInterfaceNameByIP` observes it: its name and
the outcome of `netlink.AddrList(iface, FAMILY_ALL)` — either the bound
addresses (all families) or a failure. -/
structure Iface where
  name : String
  addrs : Except Unit (List IPAddr)
deriving DecidableEq, Repr

/-- Error exits of `getInterfaceNameByIP`. -/
inductive IfaceError where
  | invalidIP
  | linkListFailed
  | addrListFailed
  | notFound
deriving DecidableEq, Repr

/-- The interface loop of `getInterfaceNameByIP` (lines 150–163): walk the
interfaces in enumeration order; an `AddrList` failure aborts; the first
interface with an address `Equal` to the target wins. -/
def findIfaceByIP (target : IPAddr) : List Iface → Except IfaceError String
  | [] => .error .notFound
  | iface :: rest =>
    match iface.addrs with
    | .error _ => .error .addrListFailed
    | .ok addrs =>
      if addrs.any (fun a => ipEqual a target) then .ok iface.name
      else findIfaceByIP target rest

/-- Function `getInterfaceNameByIP(ip)` (lines 136–166).  The `netlink.LinkList`
outcome is the external collaborator, passed as `linkList`. -/
def getInterfaceNameByIP (linkList : Except Unit (List Iface)) (ip : String) :
    Except IfaceError String :=
  match parseIP ip with
  | none => .error .invalidIP
  | some target =>
    match linkList with
    | .error _ => .error .linkListFailed
    | .ok ifaces => findIfaceByIP target ifaces

/-- Whether an interface's (successfully listed) addresses contain the
target IP — the per-interface test of the loop, for stating which
interface the loop stops at. -/
def ifaceOwns (target : IPAddr) (iface : Iface) : Bool :=
  match iface.addrs with
  | .ok addrs => addrs.any (fun a => ipEqual a target)
  | .error _ => false

/-! ### `disableTXOffloadAndEnableMTUProbing` (src/unnamed/part_000,
lines 170–186) -/

/-- Exit behaviour of the two host commands the tuner runs. -/
structure TunerHost where
  ethtoolFails : Bool
  sysctlFails : Bool
deriving DecidableEq, Repr

/-- Error exits of `disableTXOffloadAndEnableMTUProbing`. -/
inductive TunerError where
  | offloadDisableFailed
  | mtuProbingEnableFailed
deriving DecidableEq, Repr

/-- Function `disableTXOffloadAndEnableMTUProbing(interfaceName)` (lines 170–186).
Returns the function result together with which of the two commands were
attempted, as `(ethtool attempted, sysctl attempted)`.  The ethtool
failure branch returns before the sysctl command is reached. -/
def disableTXOffloadAndEnableMTUProbing (h : TunerHost) (_interfaceName : String) :
    Except TunerError Unit × Bool × Bool :=
  if h.ethtoolFails then (.error .offloadDisableFailed, true, false)
  else if h.sysctlFails then (.error .mtuProbingEnableFailed, true, true)
  else (.ok (), true, true)

/-! ### `workloadcluster.go`: `GenerateWorkloadClusterClient` and
`GenerateWorkloadClusterK8sClient` (lines 35–129) -/

/-- The fields of the `MachineContext` the two functions read: the
`KubevirtCluster` labels map (`none` for a nil map) and the control-plane
endpoint host. -/
structure MachineCtx where
  labels : Option (List (String × String))
  controlPlaneHost : String

/-- Go map lookup `m[key]` on a non-nil string map: the zero value `""`
when the key is absent. -/
def mapGet (m : List (String × String)) (key : String) : String :=
  match m.find? (fun p => p.1 = key) with
  | some p => p.2
  | none => ""

/-- Host and collaborator state the two generate functions touch. -/
structure WHost where
  kubeconfigFetch : Except Unit String
  restConfigParses : String → Bool
  markerExists : String → Bool
  routeAddFails : Bool
  ethtoolFails : Bool
  sysctlFails : Bool
  clientNewOk : Bool

/-- Error exits of the generate functions. -/
inductive GenError where
  | kubeconfigFetchFailed
  | restConfigFailed
  | clientCreateFailed
deriving DecidableEq, Repr

/-- The host-visible side effects of one generate call: the issued `ip
route add` commands (as `(<dst>/32, gateway)` pairs), the marker file
written with its content, and whether ethtool / sysctl were run. -/
structure GenEffects where
  routeAdds : List (String × String)
  markerWritten : Option (String × String)
  ethtoolRun : Bool
  sysctlRun : Bool
deriving DecidableEq, Repr

/-- No side effect on the host. -/
def noEffects : GenEffects :=
  { routeAdds := [], markerWritten := none, ethtoolRun := false, sysctlRun := false }

/-- The reconfiguration block shared by both generate functions
(workloadcluster.go lines 48–71 and 96–120): guarded by a non-nil labels
map, a non-empty `metastone/manager-gw` label, a non-empty control-plane
host, and the absence of the marker file `/metastone/<host>`.  Inside the
branch, the route add is issued with its error discarded, the marker file
is written unconditionally, and ethtool and sysctl are both run (their
errors only logged). -/
def reconfigBlock (h : WHost) (ctx : MachineCtx) : GenEffects :=
  match ctx.labels with
  | none => noEffects
  | some m =>
    let msmngapisever := mapGet m "metastone/manager-gw"
    let apiserverip := ctx.controlPlaneHost
    if msmngapisever ≠ "" ∧ apiserverip ≠ "" then
      let filename := "/metastone/" ++ apiserverip
      if h.markerExists filename then noEffects
      else
        { routeAdds := [(apiserverip ++ "/32", msmngapisever)]
          markerWritten := some (filename, msmngapisever)
          ethtoolRun := true
          sysctlRun := true }
    else noEffects

/-- Method `GenerateWorkloadClusterClient` (lines 35–80).  On success the result
carries the kubeconfig the client was built from. -/
def generateWorkloadClusterClient (h : WHost) (ctx : MachineCtx) :
    Except GenError String × GenEffects :=
  match h.kubeconfigFetch with
  | .error _ => (.error .kubeconfigFetchFailed, noEffects)
  | .ok kubeConfig =>
    if !h.restConfigParses kubeConfig then (.error .restConfigFailed, noEffects)
    else
      let eff := reconfigBlock h ctx
      if h.clientNewOk then (.ok kubeConfig, eff)
      else (.error .clientCreateFailed, eff)

/-- Method `GenerateWorkloadClusterK8sClient` (lines 83–129): the same flow with
a `kubernetes.Interface` client in place of the controller-runtime one. -/
def generateWorkloadClusterK8sClient (h : WHost) (ctx : MachineCtx) :
    Except GenError String × GenEffects :=
  match h.kubeconfigFetch with
  | .error _ => (.error .kubeconfigFetchFailed, noEffects)
  | .ok kubeConfig =>
    if !h.restConfigParses kubeConfig then (.error .restConfigFailed, noEffects)
    else
      let eff := reconfigBlock h ctx
      if h.clientNewOk then (.ok kubeConfig, eff)
      else (.error .clientCreateFailed, eff)

/-- The guard of the reconfiguration block, as one predicate: a non-nil
labels map, a non-empty `metastone/manager-gw` label, a non-empty
control-plane host, and no marker file `/metastone/<host>` yet. -/
def reconfigConditions (h : WHost) (ctx : MachineCtx) : Prop :=
  ∃ m, ctx.labels = some m ∧
    mapGet m "metastone/manager-gw" ≠ "" ∧
    ctx.controlPlaneHost ≠ "" ∧
    h.markerExists ("/metastone/" ++ ctx.controlPlaneHost) = false

/-- A host on which the `ip route add` command fails, the marker file is
absent, and everything else succeeds. -/
def failingAddHost : WHost :=
  { kubeconfigFetch := .ok "kubeconfig"
    restConfigParses := fun _ => true
    markerExists := fun _ => false
    routeAddFails := true
    ethtoolFails := false
    sysctlFails := false
    clientNewOk := true }

/-- A machine context carrying the manager-gateway label and a
control-plane host. -/
def labelledCtx : MachineCtx :=
  { labels := some [("metastone/manager-gw", "10.4.0.2")]
    controlPlaneHost := "203.0.113.5" }

/-- A fully healthy host whose marker file already exists. -/
def healthyHost : WHost :=
  { kubeconfigFetch := .ok "kubeconfig"
    restConfigParses := fun _ => true
    markerExists := fun _ => true
    routeAddFails := false
    ethtoolFails := false
    sysctlFails := false
    clientNewOk := true }

/-- A machine context with a nil labels map. -/
def unlabelledCtx : MachineCtx :=
  { labels := none
    controlPlaneHost := "203.0.113.5" }

/-! ## Claims -/

/-- C1 (counterexample): the Gateway Resolver does **not** return the
network address of every valid IPv4 CIDR with last octet 2.  Go's
`ParseCIDR` returns the address as written, so for `10.4.5.7/16` the code
yields `10.4.5.2`, while the network address of that CIDR with last octet
2 is `10.4.0.2`. -/
theorem C1_counterexample :
    managerGWFromSubnet "10.4.5.7/16" = .ok "10.4.5.2" ∧
    gatewayResolverNetworkSpec "10.4.5.7/16" = some "10.4.0.2" ∧
    ("10.4.5.2" : String) ≠ "10.4.0.2" := by
  refine ⟨rfl, rfl, by decide⟩

/-- C1 (amended): for every CIDR string whose address part parses as an
IPv4 address `a.b.c.d`, the Gateway Resolver returns the **written**
address with its last octet set to 2, i.e. `a.b.c.2` as a dotted-quad
string; when the CIDR is written in network form this coincides with the
network address with last octet 2, e.g. `10.4.0.0/16` yields `10.4.0.2`. -/
theorem C1_amended (s : String) (a b c d n : Nat)
    (h : parseCIDR s = some (.v4 a b c d, n)) :
    managerGWFromSubnet s = .ok (dottedQuad a b c 2) := by
  simp [managerGWFromSubnet, h, ipTo4]

/-- Witness for C1 (amended) at the spec's own example. -/
theorem C1_witness : managerGWFromSubnet "10.4.0.0/16" = .ok "10.4.0.2" := by
  rw [C1_amended "10.4.0.0/16" 10 4 0 0 16 (by decide)]
  exact congrArg Except.ok rfl

/-- C8: for every CIDR string that fails to parse, and for every one that
parses to a non-IPv4 address (`To4` fails), the Gateway Resolver fails
with one of its two invalid-subnet errors (spec.md's `InvalidSubnet`
bucket) and returns no gateway. -/
theorem C8_invalid_subnet (s : String)
    (h : parseCIDR s = none ∨ ∃ p, parseCIDR s = some p ∧ ipTo4 p.1 = none) :
    managerGWFromSubnet s = .error .invalidSubnet ∨
      managerGWFromSubnet s = .error .notIPv4 := by
  rcases h with h | ⟨⟨ip, n⟩, hp, h4⟩
  · exact Or.inl (by simp [managerGWFromSubnet, h])
  · exact Or.inr (by simp [managerGWFromSubnet, hp, h4])

/-- Witness for C8: a malformed CIDR and a well-formed IPv6 CIDR. -/
theorem C8_witness :
    (managerGWFromSubnet "banana" = .error .invalidSubnet ∨
      managerGWFromSubnet "banana" = .error .notIPv4) ∧
    (managerGWFromSubnet "2001:db8::/32" = .error .invalidSubnet ∨
      managerGWFromSubnet "2001:db8::/32" = .error .notIPv4) :=
  ⟨C8_invalid_subnet "banana" (Or.inl (by decide)),
   C8_invalid_subnet "2001:db8::/32"
     (Or.inr ⟨(.v6 [32, 1, 13, 184, 0, 0, 0, 0, 0, 0, 0, 0, 0, 0, 0, 0], 32),
       by decide, by decide⟩)⟩

/-- C7: `getManagerGWFromDefaultTenant` fails with a configuration error
(message `unexpected configuration ...`) when the tenant lookup returns
zero or more than one item, and also when exactly one item matches but
its subnet field is empty. -/
theorem C7_configuration_errors (items : List TenantApiServer) :
    (items.length ≠ 1 →
      ∃ e, getManagerGWFromDefaultTenant (.ok items) = .error e ∧
        isConfigurationError e = true) ∧
    (∀ it, items = [it] → it.subnet = "" →
      ∃ e, getManagerGWFromDefaultTenant (.ok items) = .error e ∧
        isConfigurationError e = true) := by
  constructor
  · intro hlen
    rcases items with _ | ⟨x, _ | ⟨y, rest⟩⟩
    · exact ⟨.wrongCount, rfl, rfl⟩
    · simp at hlen
    · exact ⟨.wrongCount, rfl, rfl⟩
  · rintro it rfl hsub
    exact ⟨.emptySubnet, by simp [getManagerGWFromDefaultTenant, hsub], rfl⟩

/-- Witness for C7: the empty list and a singleton with empty subnet. -/
theorem C7_witness :
    (∃ e, getManagerGWFromDefaultTenant (.ok []) = .error e ∧
      isConfigurationError e = true) ∧
    (∃ e, getManagerGWFromDefaultTenant (.ok [⟨""⟩]) = .error e ∧
      isConfigurationError e = true) :=
  ⟨(C7_configuration_errors []).1 (by decide),
   (C7_configuration_errors [⟨""⟩]).2 ⟨""⟩ rfl rfl⟩

/-- Function `goContains` agrees with character-list containment. -/
lemma goContains_eq_true {s sub : String} :
    goContains s sub = true ↔ sub.data <:+: s.data := by
  simp [goContains]

/-- C2: when the routing table already holds an entry `dst/32 via gw2` and
the requested gateway `gw` appears nowhere in the table text,
`checkAndAddRoute dst gw` fails with the route-conflict error, issues no
`ip route add` command, and leaves the routing table unmodified. -/
theorem C2_route_conflict (k : Kernel) (dst gw gw2 : String)
    (hentry : goContains (ipRouteShow k) (dst ++ "/32 via " ++ gw2) = true)
    (hgw : goContains (ipRouteShow k) gw = false) :
    checkAndAddRoute true k dst gw = (.error .conflict, k, []) := by
  have hdst : goContains (ipRouteShow k) (dst ++ "/32") = true := by
    rw [goContains_eq_true] at hentry ⊢
    obtain ⟨u, v, huv⟩ := hentry
    refine ⟨u, " via ".data ++ gw2.data ++ v, ?_⟩
    rw [← huv]
    have h32 : ("/32 via " : String).data = ("/32" : String).data ++ (" via " : String).data := by
      decide
    simp [String.data_append, h32]
  simp [checkAndAddRoute, hdst, hgw]

/-- Witness for C2: a table routing the destination via another gateway. -/
theorem C2_witness :
    checkAndAddRoute true ⟨"203.0.113.5/32 via 10.0.0.1", true⟩ "203.0.113.5" "10.4.0.2" =
      (.error .conflict, ⟨"203.0.113.5/32 via 10.0.0.1", true⟩, []) :=
  C2_route_conflict ⟨"203.0.113.5/32 via 10.0.0.1", true⟩ "203.0.113.5" "10.4.0.2" "10.0.0.1"
    (by decide) (by decide)

/-- C9: when the routing table holds neither `dst/32` nor the gateway
string, `checkAndAddRoute` issues exactly one `ip route add dst/32 via gw`
command, returns success when the command exits zero, and fails with the
route-add error when it exits non-zero. -/
theorem C9_absent_route_added (k : Kernel) (dst gw : String)
    (hdst : goContains (ipRouteShow k) (dst ++ "/32") = false)
    (_hgw : goContains (ipRouteShow k) gw = false) :
    (checkAndAddRoute true k dst gw).2.2 = [(dst ++ "/32", gw)] ∧
    (k.addSucceeds = true → (checkAndAddRoute true k dst gw).1 = .ok .added) ∧
    (k.addSucceeds = false → (checkAndAddRoute true k dst gw).1 = .error .addFailed) := by
  cases h : k.addSucceeds <;>
    simp [checkAndAddRoute, ipRouteAdd, hdst, h]

/-- Witness for C9: the spec's end-to-end scenario on an empty table. -/
theorem C9_witness :
    (checkAndAddRoute true ⟨"", true⟩ "203.0.113.5" "192.168.10.2").2.2 =
      [("203.0.113.5/32", "192.168.10.2")] ∧
    ((⟨"", true⟩ : Kernel).addSucceeds = true →
      (checkAndAddRoute true ⟨"", true⟩ "203.0.113.5" "192.168.10.2").1 = .ok .added) ∧
    ((⟨"", true⟩ : Kernel).addSucceeds = false →
      (checkAndAddRoute true ⟨"", true⟩ "203.0.113.5" "192.168.10.2").1 = .error .addFailed) :=
  C9_absent_route_added ⟨"", true⟩ "203.0.113.5" "192.168.10.2" (by decide) (by decide)

/-- C3: with no `dst/32` entry present and the add command succeeding, the
first `checkAndAddRoute dst gw` call adds the route (one add command), and
a second call with the same arguments on the resulting table reports the
route already exists and issues no add command. -/
theorem C3_idempotent (k : Kernel) (dst gw : String)
    (hdst : goContains (ipRouteShow k) (dst ++ "/32") = false)
    (hadd : k.addSucceeds = true) :
    (checkAndAddRoute true k dst gw).1 = .ok .added ∧
    (checkAndAddRoute true k dst gw).2.2 = [(dst ++ "/32", gw)] ∧
    checkAndAddRoute true (checkAndAddRoute true k dst gw).2.1 dst gw =
      (.ok .alreadyExists, (checkAndAddRoute true k dst gw).2.1, []) := by
  have hk2 : (checkAndAddRoute true k dst gw).2.1 =
      { k with table := k.table ++ "\n" ++ (dst ++ "/32") ++ " via " ++ gw } := by
    simp [checkAndAddRoute, ipRouteAdd, hdst, hadd]
  have hdst2 : goContains (ipRouteShow (checkAndAddRoute true k dst gw).2.1)
      (dst ++ "/32") = true := by
    rw [hk2, goContains_eq_true]
    exact ⟨k.table.data ++ ("\n" : String).data, (" via " : String).data ++ gw.data,
      by simp [ipRouteShow, String.data_append]⟩
  have hgw2 : goContains (ipRouteShow (checkAndAddRoute true k dst gw).2.1) gw = true := by
    rw [hk2, goContains_eq_true]
    exact ⟨k.table.data ++ ("\n" : String).data ++ (dst ++ "/32").data ++
      (" via " : String).data, [],
      by simp [ipRouteShow, String.data_append]⟩
  refine ⟨?_, ?_, ?_⟩
  · simp [checkAndAddRoute, ipRouteAdd, hdst, hadd]
  · simp [checkAndAddRoute, ipRouteAdd, hdst, hadd]
  · rw [hk2] at hdst2 hgw2 ⊢
    simp [checkAndAddRoute, hdst2, hgw2]

/-- Witness for C3: the spec's end-to-end scenario, both calls. -/
theorem C3_witness :
    (checkAndAddRoute true ⟨"", true⟩ "203.0.113.5" "192.168.10.2").1 = .ok .added ∧
    (checkAndAddRoute true ⟨"", true⟩ "203.0.113.5" "192.168.10.2").2.2 =
      [("203.0.113.5/32", "192.168.10.2")] ∧
    checkAndAddRoute true
        (checkAndAddRoute true ⟨"", true⟩ "203.0.113.5" "192.168.10.2").2.1
        "203.0.113.5" "192.168.10.2" =
      (.ok .alreadyExists,
       (checkAndAddRoute true ⟨"", true⟩ "203.0.113.5" "192.168.10.2").2.1, []) :=
  C3_idempotent ⟨"", true⟩ "203.0.113.5" "192.168.10.2" (by decide) rfl

/-- C4 (counterexample): when the ethtool offload-disable command fails,
`disableTXOffloadAndEnableMTUProbing` returns the offload error at once
and the sysctl MTU-probing command is **not** attempted, contrary to the
claim that a failure of step (a) does not prevent step (b). -/
theorem C4_counterexample :
    (disableTXOffloadAndEnableMTUProbing ⟨true, false⟩ "net1").1 =
      .error .offloadDisableFailed ∧
    (disableTXOffloadAndEnableMTUProbing ⟨true, false⟩ "net1").2.2 = false :=
  ⟨rfl, rfl⟩

/-- C4 (amended): the two steps fail with distinct errors, but a failure
of the ethtool step returns immediately without attempting the sysctl
step; the sysctl step is attempted, and fails independently with its own
error, only when the ethtool step succeeded. -/
theorem C4_amended (h : TunerHost) (iface : String) :
    TunerError.offloadDisableFailed ≠ TunerError.mtuProbingEnableFailed ∧
    (h.ethtoolFails = true →
      disableTXOffloadAndEnableMTUProbing h iface =
        (.error .offloadDisableFailed, true, false)) ∧
    (h.ethtoolFails = false → h.sysctlFails = true →
      disableTXOffloadAndEnableMTUProbing h iface =
        (.error .mtuProbingEnableFailed, true, true)) ∧
    (h.ethtoolFails = false → h.sysctlFails = false →
      disableTXOffloadAndEnableMTUProbing h iface = (.ok (), true, true)) := by
  obtain ⟨e, s⟩ := h
  cases e <;> cases s <;> simp [disableTXOffloadAndEnableMTUProbing]

/-- Witness for C4 (amended): sysctl fails after ethtool succeeds. -/
theorem C4_witness :
    disableTXOffloadAndEnableMTUProbing ⟨false, true⟩ "net1" =
      (.error .mtuProbingEnableFailed, true, true) :=
  (C4_amended ⟨false, true⟩ "net1").2.2.1 rfl rfl

/-- The interface loop reaches the first interface owning the target, in
enumeration order, when no `AddrList` call fails. -/
lemma findIfaceByIP_eq_find (target : IPAddr) :
    ∀ ifaces : List Iface, (∀ i ∈ ifaces, i.addrs ≠ .error ()) →
      findIfaceByIP target ifaces =
        (match ifaces.find? (ifaceOwns target) with
         | some iface => .ok iface.name
         | none => .error .notFound) := by
  intro ifaces
  induction ifaces with
  | nil => intro _; rfl
  | cons i rest ih =>
    intro hok
    obtain ⟨as, has⟩ : ∃ as, i.addrs = .ok as := by
      cases h : i.addrs with
      | error e => cases e; exact absurd h (hok i (by simp))
      | ok as => exact ⟨as, rfl⟩
    by_cases hown : as.any (fun a => ipEqual a target) = true
    · simp [findIfaceByIP, has, hown, List.find?_cons, ifaceOwns]
    · have hrest := ih (fun j hj => hok j (List.mem_cons_of_mem i hj))
      simp only [Bool.not_eq_true] at hown
      simp [findIfaceByIP, has, hown, List.find?_cons, ifaceOwns, hrest]

/-- C6: `getInterfaceNameByIP` fails with the invalid-IP error on every
unparseable input; otherwise, when interface enumeration and every
per-interface address listing succeed, it returns the name of the first
interface (in enumeration order) whose address set contains the target
IP, and fails with the not-found error when no interface owns it. -/
theorem C6_interface_locator (linkList : Except Unit (List Iface)) (ip : String) :
    (parseIP ip = none → getInterfaceNameByIP linkList ip = .error .invalidIP) ∧
    (∀ target ifaces, parseIP ip = some target → linkList = .ok ifaces →
      (∀ i ∈ ifaces, i.addrs ≠ .error ()) →
      getInterfaceNameByIP linkList ip =
        (match ifaces.find? (ifaceOwns target) with
         | some iface => .ok iface.name
         | none => .error .notFound)) := by
  constructor
  · intro hp
    simp [getInterfaceNameByIP, hp]
  · intro target ifaces hp hl hok
    subst hl
    simp only [getInterfaceNameByIP, hp]
    exact findIfaceByIP_eq_find target ifaces hok

/-- Witness for C6: an IP bound to the second of two interfaces. -/
theorem C6_witness :
    getInterfaceNameByIP
      (.ok [⟨"lo", .ok [.v4 127 0 0 1]⟩, ⟨"eth1", .ok [.v4 10 0 0 5]⟩])
      "10.0.0.5" = .ok "eth1" := by
  rw [(C6_interface_locator
      (.ok [⟨"lo", .ok [.v4 127 0 0 1]⟩, ⟨"eth1", .ok [.v4 10 0 0 5]⟩])
      "10.0.0.5").2 (.v4 10 0 0 5)
      [⟨"lo", .ok [.v4 127 0 0 1]⟩, ⟨"eth1", .ok [.v4 10 0 0 5]⟩]
      (by decide) rfl (by decide)]
  rfl

/-- Both generate functions produce exactly the reconfiguration block's
effects once the kubeconfig is fetched and parsed. -/
lemma generateClient_effects (h : WHost) (ctx : MachineCtx) (kc : String)
    (hfetch : h.kubeconfigFetch = .ok kc)
    (hrest : h.restConfigParses kc = true) :
    (generateWorkloadClusterClient h ctx).2 = reconfigBlock h ctx ∧
    (generateWorkloadClusterK8sClient h ctx).2 = reconfigBlock h ctx := by
  unfold generateWorkloadClusterClient generateWorkloadClusterK8sClient
  rw [hfetch]
  constructor <;> cases hc : h.clientNewOk <;> simp [hrest, hc]

/-- Value of the reconfiguration block when every guard passes. -/
lemma reconfigBlock_active (h : WHost) (ctx : MachineCtx) (m : List (String × String))
    (hm : ctx.labels = some m)
    (hgw : mapGet m "metastone/manager-gw" ≠ "")
    (hhost : ctx.controlPlaneHost ≠ "")
    (hmark : h.markerExists ("/metastone/" ++ ctx.controlPlaneHost) = false) :
    reconfigBlock h ctx =
      { routeAdds := [(ctx.controlPlaneHost ++ "/32", mapGet m "metastone/manager-gw")]
        markerWritten := some ("/metastone/" ++ ctx.controlPlaneHost,
          mapGet m "metastone/manager-gw")
        ethtoolRun := true
        sysctlRun := true } := by
  unfold reconfigBlock
  rw [hm]
  simp [hgw, hhost, hmark]

/-- The reconfiguration block is a no-op when any guard fails. -/
lemma reconfigBlock_skip (h : WHost) (ctx : MachineCtx)
    (hcond : ¬ reconfigConditions h ctx) :
    reconfigBlock h ctx = noEffects := by
  cases hl : ctx.labels with
  | none => simp [reconfigBlock, hl]
  | some m =>
    simp only [reconfigBlock, hl]
    split
    · rename_i hne
      split
      · rfl
      · rename_i hmark
        exact absurd ⟨m, hl, hne.1, hne.2, by simpa using hmark⟩ hcond
    · rfl

/-- C5 (counterexample): the marker file is **not** created only after a
successful route add — on a host where `ip route add` fails it is still
written, because the code discards the add command's error and writes the
file unconditionally. -/
theorem C5_counterexample :
    failingAddHost.routeAddFails = true ∧
    (generateWorkloadClusterClient failingAddHost labelledCtx).2.markerWritten =
      some ("/metastone/203.0.113.5", "10.4.0.2") ∧
    (generateWorkloadClusterK8sClient failingAddHost labelledCtx).2.markerWritten =
      some ("/metastone/203.0.113.5", "10.4.0.2") :=
  ⟨rfl, rfl, rfl⟩

/-- C5 (amended): the marker file `/metastone/<host>`, with the gateway
label as content, is written after the route add command is issued,
**regardless of that command's exit status**; its presence is checked
before reconfiguration, and an existing marker skips all route, marker,
ethtool and sysctl work. -/
theorem C5_amended (h : WHost) (ctx : MachineCtx) (m : List (String × String)) (kc : String)
    (hm : ctx.labels = some m)
    (hgw : mapGet m "metastone/manager-gw" ≠ "")
    (hhost : ctx.controlPlaneHost ≠ "")
    (hfetch : h.kubeconfigFetch = .ok kc)
    (hrest : h.restConfigParses kc = true) :
    (h.markerExists ("/metastone/" ++ ctx.controlPlaneHost) = false →
      (generateWorkloadClusterClient h ctx).2 =
        { routeAdds := [(ctx.controlPlaneHost ++ "/32", mapGet m "metastone/manager-gw")]
          markerWritten := some ("/metastone/" ++ ctx.controlPlaneHost,
            mapGet m "metastone/manager-gw")
          ethtoolRun := true
          sysctlRun := true } ∧
      (generateWorkloadClusterK8sClient h ctx).2 =
        { routeAdds := [(ctx.controlPlaneHost ++ "/32", mapGet m "metastone/manager-gw")]
          markerWritten := some ("/metastone/" ++ ctx.controlPlaneHost,
            mapGet m "metastone/manager-gw")
          ethtoolRun := true
          sysctlRun := true }) ∧
    (h.markerExists ("/metastone/" ++ ctx.controlPlaneHost) = true →
      (generateWorkloadClusterClient h ctx).2 = noEffects ∧
      (generateWorkloadClusterK8sClient h ctx).2 = noEffects) := by
  obtain ⟨he1, he2⟩ := generateClient_effects h ctx kc hfetch hrest
  constructor
  · intro hmark
    rw [he1, he2, reconfigBlock_active h ctx m hm hgw hhost hmark]
    exact ⟨rfl, rfl⟩
  · intro hmark
    have hskip : reconfigBlock h ctx = noEffects := by
      refine reconfigBlock_skip h ctx ?_
      rintro ⟨m2, -, -, -, hmark2⟩
      rw [hmark] at hmark2
      exact absurd hmark2 (by simp)
    rw [he1, he2, hskip]
    exact ⟨rfl, rfl⟩

/-- Witness for C5 (amended): absent marker on `failingAddHost`, existing
marker on `healthyHost`. -/
theorem C5_witness :
    (generateWorkloadClusterClient failingAddHost labelledCtx).2 =
      { routeAdds := [("203.0.113.5/32", "10.4.0.2")]
        markerWritten := some ("/metastone/203.0.113.5", "10.4.0.2")
        ethtoolRun := true
        sysctlRun := true } ∧
    (generateWorkloadClusterK8sClient healthyHost labelledCtx).2 = noEffects := by
  constructor
  · exact (((C5_amended failingAddHost labelledCtx
      [("metastone/manager-gw", "10.4.0.2")] "kubeconfig"
      rfl (by decide) (by decide) rfl rfl).1 rfl).1).trans (by decide)
  · exact ((C5_amended healthyHost labelledCtx
      [("metastone/manager-gw", "10.4.0.2")] "kubeconfig"
      rfl (by decide) (by decide) rfl rfl).2 rfl).2

/-- C10: when the reconfiguration guard fails — nil labels map, empty
`metastone/manager-gw` label, empty control-plane host, or an existing
marker file — both generate functions issue no route add, no ethtool, no
sysctl, write no file, and (when the kubeconfig steps succeed) still
construct the client from the fetched kubeconfig. -/
theorem C10_no_reconfig_frame (h : WHost) (ctx : MachineCtx)
    (hcond : ¬ reconfigConditions h ctx) :
    (generateWorkloadClusterClient h ctx).2 = noEffects ∧
    (generateWorkloadClusterK8sClient h ctx).2 = noEffects ∧
    (∀ kc, h.kubeconfigFetch = .ok kc → h.restConfigParses kc = true →
      h.clientNewOk = true →
      (generateWorkloadClusterClient h ctx).1 = .ok kc ∧
      (generateWorkloadClusterK8sClient h ctx).1 = .ok kc) := by
  have hb := reconfigBlock_skip h ctx hcond
  refine ⟨?_, ?_, ?_⟩
  · cases hf : h.kubeconfigFetch with
    | error e => simp [generateWorkloadClusterClient, hf]
    | ok kc =>
      cases hr : h.restConfigParses kc with
      | false => simp [generateWorkloadClusterClient, hf, hr]
      | true => cases hc : h.clientNewOk <;>
          simp [generateWorkloadClusterClient, hf, hr, hc, hb]
  · cases hf : h.kubeconfigFetch with
    | error e => simp [generateWorkloadClusterK8sClient, hf]
    | ok kc =>
      cases hr : h.restConfigParses kc with
      | false => simp [generateWorkloadClusterK8sClient, hf, hr]
      | true => cases hc : h.clientNewOk <;>
          simp [generateWorkloadClusterK8sClient, hf, hr, hc, hb]
  · intro kc hf hr hc
    constructor <;>
      simp [generateWorkloadClusterClient, generateWorkloadClusterK8sClient, hf, hr, hc]

/-- Witness for C10: a healthy host with a nil labels map. -/
theorem C10_witness :
    (generateWorkloadClusterClient healthyHost unlabelledCtx).2 = noEffects ∧
    (generateWorkloadClusterK8sClient healthyHost unlabelledCtx).2 = noEffects ∧
    (generateWorkloadClusterClient healthyHost unlabelledCtx).1 = .ok "kubeconfig" ∧
    (generateWorkloadClusterK8sClient healthyHost unlabelledCtx).1 = .ok "kubeconfig" := by
  have h := C10_no_reconfig_frame healthyHost unlabelledCtx
    (by rintro ⟨m, hm, -, -, -⟩; simp [unlabelledCtx] at hm)
  exact ⟨h.1, h.2.1, (h.2.2 "kubeconfig" rfl rfl rfl).1, (h.2.2 "kubeconfig" rfl rfl rfl).2⟩

end Metastone
